import Mathlib

/-!
Verification development for the MessengerFlow ingestion core.

The definitions below are a shallow embedding of the repository's
server-side webhook handler (server/routes/webhook.js), the REST send
endpoint (server/routes/api.js) and the client-side send/reconciliation
logic (components/Inbox/ChatWindow.tsx).  The durable store (Supabase
tables "conversations" and "messages") is modelled as explicit lists of
rows; each Supabase query builder call is modelled by a small pure
function on that state.  Timestamps are modelled as integers
(milliseconds); the code converts them to ISO-8601 strings whose
lexicographic order agrees with the numeric order, so the "lte"
comparison on stored timestamps is modelled by integer ≤.
-/

namespace MessengerFlow

/-- A row of the "conversations" table (columns as written by webhook.js). -/
structure Conversation where
  id : String
  pageId : String
  customerId : String
  customerName : String
  customerAvatar : String
  lastMessage : String
  lastTimestamp : Int
  status : String
  assignedAgentId : Option String
  unreadCount : Nat
deriving DecidableEq

/-- A row of the "messages" table. -/
structure Message where
  id : String
  conversationId : String
  senderId : String
  senderName : String
  text : String
  timestamp : Int
  isIncoming : Bool
  isRead : Bool
deriving DecidableEq

/-- The durable store owned by the ingestion core. -/
structure Store where
  conversations : List Conversation
  messages : List Message
deriving DecidableEq

def emptyStore : Store := ⟨[], []⟩

/-- Model of
`conversations.select(..).eq(customerId, senderId).eq(pageId, pageId).single()`:
with `.single()` PostgREST returns the row only when exactly one row
matches; otherwise `data` is null (webhook.js destructures `data` and
ignores the error). -/
def selectSingleConv (s : Store) (customerId pageId : String) : Option Conversation :=
  match s.conversations.filter (fun c => c.customerId == customerId && c.pageId == pageId) with
  | [c] => some c
  | _ => none

/-- Replace every conversation row whose primary key equals the new row's key. -/
def replaceById (l : List Conversation) (c : Conversation) : List Conversation :=
  l.map (fun x => if x.id = c.id then c else x)

/-- Model of `conversations.upsert(row)`: insert-or-replace keyed on the
primary key `id`. -/
def upsertConv (s : Store) (c : Conversation) : Store :=
  if s.conversations.any (fun x => x.id == c.id) then
    { s with conversations := replaceById s.conversations c }
  else
    { s with conversations := s.conversations ++ [c] }

/-- Model of `messages.insert(m)`: a primary-key insert.  A duplicate `id`
violates the unique constraint: the returned Boolean is the `messageError`
value (true = error, no row written). -/
def insertMessage (s : Store) (m : Message) : Store × Bool :=
  if s.messages.any (fun x => x.id == m.id) then (s, true)
  else ({ s with messages := s.messages ++ [m] }, false)

/-- The `message` sub-object of a webhook messaging event: `mid`, optional
`text` (absent for non-text messages) and the event timestamp. -/
structure MessageEvent where
  mid : String
  text : Option String
  timestamp : Int
deriving DecidableEq

/-- The conversation row created by `handleMessage` for a first contact
(webhook.js lines 91-106): the identity is the deterministic composite
`pageId_senderId`, status OPEN, unread counter 1. -/
def newConversationRow (pageId senderId messageText : String) (timestamp : Int) : Conversation :=
  { id := pageId ++ "_" ++ senderId
    pageId := pageId
    customerId := senderId
    customerName := "User " ++ senderId.take 8
    customerAvatar := ""
    lastMessage := messageText
    lastTimestamp := timestamp
    status := "OPEN"
    assignedAgentId := none
    unreadCount := 1 }

/-- Model of `handleMessage(event, pageId, senderId)` (webhook.js 68-143).
A non-text message is skipped (warning logged).  Otherwise the handler
looks the conversation up; if absent it upserts a fresh row (status OPEN,
unread counter 1).  If the conversation exists, webhook.js 111-118 issues
`conversations.update({lastMessage, lastTimestamp, unreadCount:
supabaseAdmin.rpc("increment", {x: 1})})`: that rpc query builder is
never awaited, so no RPC runs — the builder object is JSON-serialized
into the PATCH body, PostgREST rejects the write to the INTEGER
`unreadCount` column (the schema also defines no `increment` function),
and the returned error is ignored — so at runtime the whole update branch
changes nothing and is modelled as a no-op.  Finally the handler inserts
the message row keyed by the platform `mid`; an insert error (duplicate
key) is logged and leaves the store unchanged. -/
def handleMessage (s : Store) (event : MessageEvent) (pageId senderId : String) : Store :=
  match event.text with
  | none => s
  | some messageText =>
    let messageId := event.mid
    let timestamp := event.timestamp
    let existingConv := selectSingleConv s senderId pageId
    let s1 : Store :=
      match existingConv with
      | none => upsertConv s (newConversationRow pageId senderId messageText timestamp)
      | some _ => s
    let conversationId :=
      match existingConv with
      | some conv => conv.id
      | none => pageId ++ "_" ++ senderId
    (insertMessage s1
      { id := messageId
        conversationId := conversationId
        senderId := senderId
        senderName := "User " ++ senderId.take 8
        text := messageText
        timestamp := timestamp
        isIncoming := true
        isRead := false }).1

/-- Model of `handleDelivery(event)` (webhook.js 148-163): when `mids` is
present and non-empty, every message whose id is in the list is marked
read; ids matching no stored row simply update nothing. -/
def handleDelivery (s : Store) (mids : Option (List String)) : Store :=
  match mids with
  | none => s
  | some ids =>
    if ids.length > 0 then
      { s with messages := s.messages.map (fun m =>
          if ids.contains m.id then { m with isRead := true } else m) }
    else s

/-- Model of `handleRead(event)` (webhook.js 168-181): marks every stored
message with timestamp ≤ watermark as read.  The update carries no
conversation filter. -/
def handleRead (s : Store) (watermark : Int) : Store :=
  { s with messages := s.messages.map (fun m =>
      if m.timestamp ≤ watermark then { m with isRead := true } else m) }

/-- One element of an entry's `messaging` array.  `none` in `sender` or
`recipient` models the absence of that object (a property access on it
raises a TypeError in the source). -/
structure WebhookEvent where
  sender : Option String
  recipient : Option String
  message : Option MessageEvent
  delivery : Option (Option (List String))
  read : Option Int
deriving DecidableEq

/-- One element of the payload's `entry` array; `messaging := none` models
an entry whose `messaging` array is absent (indexing it raises). -/
structure Entry where
  messaging : Option (List WebhookEvent)
deriving DecidableEq

/-- The raw webhook payload body. -/
structure Payload where
  object : String
  entry : List Entry
deriving DecidableEq

/-- The body of the `for (const entry of body.entry)` loop (webhook.js
41-57).  `Except.error` models a raised TypeError: `entry.messaging[0]`
when the array is absent, or `webhookEvent.sender.id` /
`webhookEvent.recipient.id` when those objects are absent.  An empty
`messaging` array yields an undefined first element and the loop
continues.  Only the first element of `messaging` is ever examined. -/
def processEntry (s : Store) (entry : Entry) : Except Unit Store :=
  match entry.messaging with
  | none => Except.error ()
  | some events =>
    match events.head? with
    | none => Except.ok s
    | some ev =>
      match ev.sender with
      | none => Except.error ()
      | some senderId =>
        match ev.recipient with
        | none => Except.error ()
        | some recipientId =>
          let pageId := recipientId
          match ev.message with
          | some msg => Except.ok (handleMessage s msg pageId senderId)
          | none =>
            match ev.delivery with
            | some mids => Except.ok (handleDelivery s mids)
            | none =>
              match ev.read with
              | some watermark => Except.ok (handleRead s watermark)
              | none => Except.ok s

/-- The `try { for .. } catch` block: the catch wraps the whole loop, so a
raise while handling one entry abandons the remaining entries (the store
keeps the writes of the entries already processed). -/
def processEntries (s : Store) : List Entry → Store
  | [] => s
  | e :: rest =>
    match processEntry s e with
    | Except.ok s1 => processEntries s1 rest
    | Except.error _ => s

def pageObject : String := "page"

/-- Model of the webhook POST handler (webhook.js 32-63): the 200
acknowledgment is sent unconditionally and processing happens only for
payloads whose `object` is "page". -/
def processWebhook (s : Store) (p : Payload) : Store :=
  if p.object = pageObject then processEntries s p.entry else s

/-- `res.status(200).send(..)` is issued before any processing. -/
def webhookResponseStatus (_p : Payload) : Nat := 200

/-! ## Client-side send path (components/Inbox/ChatWindow.tsx) -/

/-- Model of `isWindowExpired` (ChatWindow.tsx 52-56): true exactly when
the elapsed time since the conversation's last timestamp exceeds 24 hours
in milliseconds. -/
def isWindowExpired (lastTimestamp now : Int) : Bool :=
  decide ((now - lastTimestamp) > 24 * 60 * 60 * 1000)

/-- Modelled from the spec: `addMessage` of the application context
(store/AppContext, not among the ingestion-core sources).  Per the
Message invariant of the data model, "a write with a previously seen
identity is a no-op (idempotent upsert), never a duplicate row", so the
local view keeps at most one entry per identifier. -/
def addMessage (view : List Message) (m : Message) : List Message :=
  if view.any (fun x => x.id == m.id) then view else view ++ [m]

def humanAgentTag : String := "HUMAN_AGENT"

/-- Model of JavaScript `String.prototype.trim`: strip leading and
trailing whitespace. -/
def jsTrim (s : String) : String :=
  ⟨((s.data.dropWhile Char.isWhitespace).reverse.dropWhile Char.isWhitespace).reverse⟩

/-- The outbound request issued through `sendPageMessage`. -/
structure SendRequest where
  recipientId : String
  text : String
  tag : Option String
deriving DecidableEq

/-- Result of the `sendPageMessage` call: success carries the optional
platform `message_id`; `err` models a rejected promise. -/
inductive SendOutcome where
  | ok : Option String → SendOutcome
  | err : SendOutcome
deriving DecidableEq

/-- Observable result of a `handleSend` run: the local message view, the
`sentMessageIds` dedup set, and the outbound request actually issued
(none when a guard returned early). -/
structure SendState where
  view : List Message
  sentIds : List String
  request : Option SendRequest
deriving DecidableEq

/-- Model of `handleSend` (ChatWindow.tsx 126-205) on the state it
touches.  `tempId` stands for the generated `temp-..` identifier and
`outcome` for the platform's response.  Guards modelled: empty trimmed
text returns early, as does a `tempId` already present in
`sentMessageIds` (the `isSending` and page-connection guards are assumed
passed, and the approved-content check applies only to typed text).  An
expired window does not return: it only makes the request carry the
HUMAN_AGENT tag.  On success with a platform id, the authoritative copy
is added alongside the optimistic one; on failure the catch block removes
`tempId` from `sentMessageIds` only. -/
def handleSend (view : List Message) (sentIds : List String) (conv : Conversation)
    (userId userName : Option String) (inputText : String) (tempId : String)
    (now : Int) (outcome : SendOutcome) : SendState :=
  let textToSubmit := jsTrim inputText
  if textToSubmit = "" then ⟨view, sentIds, none⟩
  else if sentIds.contains tempId then ⟨view, sentIds, none⟩
  else
    let sentIds1 := tempId :: sentIds
    let expired := isWindowExpired conv.lastTimestamp now
    let optimisticMessage : Message :=
      { id := tempId
        conversationId := conv.id
        senderId := userId.getD ("agent")
        senderName := userName.getD ("Agent")
        text := textToSubmit
        timestamp := now
        isIncoming := false
        isRead := true }
    let view1 := addMessage view optimisticMessage
    let req : SendRequest :=
      { recipientId := conv.customerId
        text := textToSubmit
        tag := if expired then some humanAgentTag else none }
    match outcome with
    | SendOutcome.ok (some mid) =>
        ⟨addMessage view1 { optimisticMessage with id := mid }, sentIds1, some req⟩
    | SendOutcome.ok none => ⟨view1, sentIds1, some req⟩
    | SendOutcome.err => ⟨view1, sentIds1.erase tempId, some req⟩

/-! ## REST send endpoint (server/routes/api.js, POST /api/send-message) -/

/-- Model of the `POST /api/send-message` handler (api.js 90-134).
`generatedId` stands for the identifier the handler builds from
`Date.now()` and a random suffix on every invocation; `now` for the
current time.  A missing or empty `conversationId` or `text` yields 400
with no write.  The insert error path (`throw error`) yields 500 and
skips the conversation update.  Otherwise the message row is written
with isIncoming = false and isRead = true and the conversation's last
message and last time are updated. -/
def apiSendMessage (s : Store) (conversationId text : String)
    (senderId senderName : Option String) (generatedId : String) (now : Int) :
    Store × Nat :=
  if conversationId == "" || text == "" then (s, 400)
  else
    let msg : Message :=
      { id := generatedId
        conversationId := conversationId
        senderId := senderId.getD ("agent")
        senderName := senderName.getD ("Agent")
        text := text
        timestamp := now
        isIncoming := false
        isRead := true }
    match insertMessage s msg with
    | (_, true) => (s, 500)
    | (s1, false) =>
        let s2 : Store := { s1 with conversations := s1.conversations.map (fun c =>
            if c.id = conversationId then
              { c with lastMessage := text, lastTimestamp := now }
            else c) }
        (s2, 200)

/-! ## Concrete scenario inputs -/

def p1 : String := "p1"
def c1 : String := "c1"
def m1Id : String := "m1"
def m2Id : String := "m2"
def zzzId : String := "zzz"
def hiText : String := "Hi"
def convIdP1C1 : String := "p1_c1"

/-- The inbound event of end-to-end scenario A: mid "m1", text "Hi". -/
def scenarioAEvent : MessageEvent := { mid := m1Id, text := some hiText, timestamp := 1000 }

/-- Store after processing scenario A once from the empty store. -/
def scenarioAStore : Store := handleMessage emptyStore scenarioAEvent p1 c1

def tempId1 : String := "temp-1"

/-! ## Helper lemmas -/

lemma any_id_eq_false {l : List Conversation} {i : String}
    (h : ∀ x ∈ l, x.id ≠ i) : (l.any fun x => x.id == i) = false := by
  induction l with
  | nil => rfl
  | cons a tl ih =>
    simp only [List.any_cons, Bool.or_eq_false_iff, beq_eq_false_iff_ne]
    exact ⟨h a (List.mem_cons_self a tl),
      ih fun x hx => h x (List.mem_cons_of_mem a hx)⟩

lemma insertMessage_conversations (s : Store) (m : Message) :
    ((insertMessage s m).1).conversations = s.conversations := by
  unfold insertMessage
  split <;> rfl

lemma upsert_fresh_eq (s : Store) (c : Conversation)
    (h : ∀ x ∈ s.conversations, x.id ≠ c.id) :
    upsertConv s c = { s with conversations := s.conversations ++ [c] } := by
  unfold upsertConv
  rw [any_id_eq_false h]
  simp

lemma replaceById_noop (c : Conversation) :
    ∀ (l : List Conversation), (∀ x ∈ l, x.id ≠ c.id) → replaceById l c = l
  | [], _ => rfl
  | a :: tl, h => by
    unfold replaceById
    rw [List.map_cons, if_neg (h a (List.mem_cons_self a tl))]
    have htl := replaceById_noop c tl fun x hx => h x (List.mem_cons_of_mem a hx)
    unfold replaceById at htl
    rw [htl]

lemma map_id_of_eq {α : Type} (f : α → α) :
    ∀ (l : List α), (∀ x ∈ l, f x = x) → l.map f = l
  | [], _ => rfl
  | a :: tl, h => by
    rw [List.map_cons, h a (List.mem_cons_self a tl),
      map_id_of_eq f tl fun x hx => h x (List.mem_cons_of_mem a hx)]

lemma any_eq_false_of_all_not {α : Type} (p : α → Bool) :
    ∀ (l : List α), (l.all fun x => !p x) = true → l.any p = false
  | [], _ => rfl
  | a :: tl, h => by
    simp only [List.all_cons, Bool.and_eq_true, Bool.not_eq_true'] at h
    simp only [List.any_cons, h.1, any_eq_false_of_all_not p tl h.2, Bool.or_self]

/-- C2: when the send request fails, the catch block of `handleSend` only
deletes the temporary identifier from the `sentMessageIds` set; the
optimistic entry itself is never removed from the local message view
(despite the source comment announcing its removal), so it stays
visible. -/
theorem c2_failed_send_keeps_optimistic_entry :
    (handleSend [] [] (newConversationRow p1 c1 hiText 0) none none hiText
        tempId1 1000 SendOutcome.err).view.map (fun m => m.id) = [tempId1]
    ∧ (handleSend [] [] (newConversationRow p1 c1 hiText 0) none none hiText
        tempId1 1000 SendOutcome.err).sentIds = [] := by
  decide

/-- C5 counterexample: malformed inputs the claim says degrade silently do
raise: an entry whose `messaging` array is absent, and a text-message
event whose `sender` object is absent, both make the per-entry processing
raise (the error is then caught and logged at the payload level, not
silently dropped). -/
theorem c5_malformed_entry_raises :
    processEntry emptyStore ⟨none⟩ = Except.error ()
    ∧ processEntry emptyStore
        ⟨some [⟨none, some p1, some ⟨m1Id, some hiText, 1000⟩, none, none⟩]⟩
      = Except.error () :=
  ⟨rfl, rfl⟩

/-- C5 (amended): entries that do carry a `messaging` array degrade to
"no event produced" with no error — an empty array, an event with no
recognized sub-event, and a non-text message (dropped with a warning) all
leave the store unchanged and raise nothing; but an entry without the
`messaging` array, or an event missing its `sender`, raises an internal
error that the payload-level catch logs as an error. -/
theorem c5_decode_behavior (s : Store) (sid rid mid : String) (ts : Int) :
    processEntry s ⟨some []⟩ = Except.ok s
    ∧ processEntry s ⟨some [⟨some sid, some rid, none, none, none⟩]⟩ = Except.ok s
    ∧ processEntry s ⟨some [⟨some sid, some rid, some ⟨mid, none, ts⟩, none, none⟩]⟩
        = Except.ok s
    ∧ processEntry s ⟨none⟩ = Except.error ()
    ∧ processEntry s ⟨some [⟨none, some rid, some ⟨mid, some hiText, ts⟩, none, none⟩]⟩
        = Except.error () :=
  ⟨rfl, rfl, rfl, rfl, rfl⟩

def badEntry : Entry := ⟨none⟩

def goodMsgEntry : Entry := ⟨some [⟨some c1, some p1, some scenarioAEvent, none, none⟩]⟩

def secondMsgEntry : Entry :=
  ⟨some [⟨some c1, some p1, some ⟨m2Id, some hiText, 2000⟩, none, none⟩]⟩

/-- C6 counterexample: a payload with two entries in which the first one
raises (its `messaging` array is absent) leaves the second, unrelated
entry unprocessed — the same second entry alone does produce a message
row. -/
theorem c6_raise_blocks_rest :
    (processWebhook emptyStore ⟨pageObject, [badEntry, goodMsgEntry]⟩).messages.length = 0
    ∧ (processWebhook emptyStore ⟨pageObject, [goodMsgEntry]⟩).messages.length = 1 := by
  decide

/-- C6 (amended): the try/catch wraps the whole entry loop, so an entry
that raises aborts processing of all remaining entries of the payload
(the store keeps only the writes made before it); only failures inside
the per-event handlers, which catch their own errors — such as the
duplicate-key message insert — leave the loop running so that subsequent
entries are still processed. -/
theorem c6_payload_level_catch (s : Store) (e : Entry) (rest : List Entry)
    (herr : processEntry s e = Except.error ()) :
    processWebhook s ⟨pageObject, e :: rest⟩ = s
    ∧ (processWebhook scenarioAStore
          ⟨pageObject, [goodMsgEntry, secondMsgEntry]⟩).messages.map (fun m => m.id)
        = [m1Id, m2Id] := by
  constructor
  · simp [processWebhook, processEntries, herr]
  · decide

/-- Witness for C6 (amended): an entry missing its `messaging` array
raises, and the remaining good entry of the payload is dropped. -/
theorem c6_catch_witness :
    processWebhook emptyStore ⟨pageObject, badEntry :: [goodMsgEntry]⟩ = emptyStore
    ∧ (processWebhook scenarioAStore
          ⟨pageObject, [goodMsgEntry, secondMsgEntry]⟩).messages.map (fun m => m.id)
        = [m1Id, m2Id] :=
  c6_payload_level_catch emptyStore badEntry [goodMsgEntry] rfl

def notPage : String := "user"

def c10FirstEv : WebhookEvent := ⟨some c1, some p1, some scenarioAEvent, none, none⟩

def c10SecondEv : WebhookEvent := ⟨some c1, some p1, none, none, some 99⟩

/-- C10: the POST handler acknowledges every payload with 200, performs
state changes only when `object` is "page", and looks only at the first
element of each entry's `messaging` array, so later sub-events in the
same entry have no effect on the outcome. -/
theorem c10_page_gate_first_event (s : Store) (p : Payload)
    (ev : WebhookEvent) (rest : List WebhookEvent)
    (hobj : p.object ≠ pageObject) :
    processWebhook s p = s
    ∧ webhookResponseStatus p = 200
    ∧ processEntry s ⟨some (ev :: rest)⟩ = processEntry s ⟨some [ev]⟩ := by
  refine ⟨?_, rfl, rfl⟩
  simp [processWebhook, hobj]

/-- Witness for C10: a payload whose object is "user" changes nothing and
is still acknowledged with 200; an entry carrying a second messaging
sub-event behaves exactly like the entry with the first one alone. -/
theorem c10_gate_witness :
    processWebhook emptyStore ⟨notPage, [goodMsgEntry]⟩ = emptyStore
    ∧ webhookResponseStatus ⟨notPage, [goodMsgEntry]⟩ = 200
    ∧ processEntry emptyStore ⟨some (c10FirstEv :: [c10SecondEv])⟩
        = processEntry emptyStore ⟨some [c10FirstEv]⟩ :=
  c10_page_gate_first_event emptyStore ⟨notPage, [goodMsgEntry]⟩ c10FirstEv
    [c10SecondEv] (by decide)

def convIdP1C2 : String := "p1_c2"

def c4M1 : Message := ⟨m1Id, convIdP1C1, c1, "User c1", hiText, 5, true, false⟩

def c4OtherMsg : Message := ⟨m2Id, convIdP1C2, "c2", "User c2", hiText, 5, true, false⟩

def c4Store : Store := ⟨[], [c4M1, c4OtherMsg]⟩

def c4ReadEntry : Entry := ⟨some [⟨some c1, some p1, none, none, some 10⟩]⟩

/-- C4 counterexample: a read-receipt event from sender c1 (so the
affected conversation is p1_c1) with watermark 10 also marks the message
of the unrelated conversation p1_c2 as read — the update carries no
conversation filter, so messages of other conversations do change. -/
theorem c4_read_receipt_crosses_conversations :
    (processEntry c4Store c4ReadEntry).toOption.map
        (fun st => st.messages.map (fun m => (m.conversationId, m.isRead)))
      = some [(convIdP1C1, true), (convIdP1C2, true)] := by
  decide

/-- C4 (amended): applying a read receipt with watermark W marks every
stored message of every conversation whose timestamp is ≤ W (inclusive
boundary) as read, leaves the message count and the conversations table
unchanged — the update is store-wide, not restricted to the affected
conversation. -/
theorem c4_watermark_marks_all_messages (s : Store) (w : Int) (m : Message)
    (hm : m ∈ s.messages) :
    ((if m.timestamp ≤ w then { m with isRead := true } else m)
        ∈ (handleRead s w).messages)
    ∧ (handleRead s w).messages.length = s.messages.length
    ∧ (handleRead s w).conversations = s.conversations := by
  refine ⟨List.mem_map_of_mem _ hm, ?_, rfl⟩
  simp [handleRead]

/-- Witness for C4 (amended): the watermark equals the message timestamp
of the p1_c2 message, so the inclusive boundary marks it read, across
conversations. -/
theorem c4_watermark_witness :
    ((if c4OtherMsg.timestamp ≤ (5 : Int) then { c4OtherMsg with isRead := true }
        else c4OtherMsg) ∈ (handleRead c4Store 5).messages)
    ∧ (handleRead c4Store 5).messages.length = c4Store.messages.length
    ∧ (handleRead c4Store 5).conversations = c4Store.conversations :=
  c4_watermark_marks_all_messages c4Store 5 c4OtherMsg (by decide)

/-- C7: the messaging-window policy is a pure function of the last
timestamp and the current time that is RESTRICTED exactly when the
elapsed time exceeds 24 hours (25 hours in the past is RESTRICTED, one
hour in the past is ALLOWED), and an expired window does not block the
send: `handleSend` still issues the outbound request, carrying the
HUMAN_AGENT tag. -/
theorem c7_window_policy (last now : Int) (view : List Message)
    (sentIds : List String) (conv : Conversation) (uid uname : Option String)
    (txt tempId : String) (outcome : SendOutcome)
    (htxt : ¬ jsTrim txt = "")
    (hdup : sentIds.contains tempId = false)
    (hexp : isWindowExpired conv.lastTimestamp now = true) :
    (isWindowExpired last now = true ↔ now - last > 24 * 60 * 60 * 1000)
    ∧ isWindowExpired (now - 25 * 60 * 60 * 1000) now = true
    ∧ isWindowExpired (now - 60 * 60 * 1000) now = false
    ∧ (handleSend view sentIds conv uid uname txt tempId now outcome).request
        = some { recipientId := conv.customerId, text := jsTrim txt,
                 tag := some humanAgentTag } := by
  refine ⟨by simp [isWindowExpired], ?_, ?_, ?_⟩
  · simp only [isWindowExpired, decide_eq_true_eq]
    omega
  · simp only [isWindowExpired, decide_eq_false_iff_not]
    omega
  · unfold handleSend
    rw [if_neg htxt]
    simp only [hdup, Bool.false_eq_true, if_false]
    rcases outcome with mid | _
    · rcases mid with _ | m <;> simp [hexp]
    · simp [hexp]

/-- Witness for C7: with the conversation's last timestamp 25 hours in
the past the policy is RESTRICTED yet the request is still issued with
the HUMAN_AGENT tag; a one-hour-old timestamp is ALLOWED. -/
theorem c7_window_witness :
    (isWindowExpired 0 90000000 = true ↔
        (90000000 : Int) - 0 > 24 * 60 * 60 * 1000)
    ∧ isWindowExpired (90000000 - 25 * 60 * 60 * 1000) 90000000 = true
    ∧ isWindowExpired (90000000 - 60 * 60 * 1000) 90000000 = false
    ∧ (handleSend [] [] (newConversationRow p1 c1 hiText 0) none none hiText
          tempId1 90000000 SendOutcome.err).request
        = some { recipientId := (newConversationRow p1 c1 hiText 0).customerId,
                 text := jsTrim hiText, tag := some humanAgentTag } :=
  c7_window_policy 0 90000000 [] [] (newConversationRow p1 c1 hiText 0) none none
    hiText tempId1 SendOutcome.err (by decide) (by decide) (by decide)

def c8Store : Store := ⟨[], [c4M1]⟩

/-- C8: a delivery receipt marks each listed message read (all other
fields and rows untouched), and a receipt whose identifiers match no
stored message is a no-op: no error, no state change. -/
theorem c8_delivery_receipt (s : Store) (ids : List String) (m : Message)
    (hm : m ∈ s.messages) :
    ((if ids.contains m.id then { m with isRead := true } else m)
        ∈ (handleDelivery s (some ids)).messages)
    ∧ ((s.messages.all fun x => !ids.contains x.id) = true →
        handleDelivery s (some ids) = s)
    ∧ (handleDelivery s (some ids)).conversations = s.conversations
    ∧ (handleDelivery s (some ids)).messages.length = s.messages.length := by
  rcases ids with _ | ⟨a, as⟩
  · refine ⟨?_, fun _ => rfl, rfl, rfl⟩
    simpa [handleDelivery] using hm
  · have hd : handleDelivery s (some (a :: as)) =
        { s with messages := s.messages.map (fun x =>
            if (a :: as).contains x.id then { x with isRead := true } else x) } := by
      simp [handleDelivery]
    refine ⟨?_, ?_, ?_, ?_⟩
    · rw [hd]
      exact List.mem_map_of_mem _ hm
    · intro hall
      have hmap : s.messages.map (fun x =>
          if (a :: as).contains x.id then { x with isRead := true } else x)
            = s.messages := by
        refine map_id_of_eq _ s.messages fun x hx => ?_
        have hx2 := List.all_eq_true.mp hall x hx
        rw [Bool.not_eq_true'] at hx2
        rw [hx2]
        simp
      rw [hd, hmap]
    · rw [hd]
    · rw [hd]
      simp

/-- Witness for C8: scenario C — a receipt for the known id m1 marks it
read; a receipt for the unknown id zzz leaves the store unchanged. -/
theorem c8_delivery_witness :
    ((if [m1Id].contains c4M1.id then { c4M1 with isRead := true } else c4M1)
        ∈ (handleDelivery c8Store (some [m1Id])).messages)
    ∧ handleDelivery c8Store (some [zzzId]) = c8Store :=
  ⟨(c8_delivery_receipt c8Store [m1Id] c4M1 (by decide)).1,
   (c8_delivery_receipt c8Store [zzzId] c4M1 (by decide)).2.1 (by decide)⟩

lemma double_upsert_count (s : Store) (r : Conversation)
    (hfr : ∀ x ∈ s.conversations, x.id ≠ r.id) :
    ((upsertConv (upsertConv s r) r).conversations.countP
        (fun x => x.id == r.id)) = 1 := by
  rw [upsert_fresh_eq s r hfr]
  have hcount0 : s.conversations.countP (fun x => x.id == r.id) = 0 :=
    List.countP_eq_zero.mpr fun a ha => by simp [hfr a ha]
  have hany : ((s.conversations ++ [r]).any fun x => x.id == r.id) = true := by
    simp
  unfold upsertConv
  simp only [hany]
  rw [if_pos trivial]
  unfold replaceById
  rw [List.map_append]
  have hnoop : s.conversations.map (fun x => if x.id = r.id then r else x)
      = s.conversations := by
    have h := replaceById_noop r s.conversations hfr
    unfold replaceById at h
    exact h
  rw [hnoop]
  simp [List.countP_append, List.countP_cons, hcount0]

/-- C3: conversation identity is the deterministic pure composite
pageId_senderId — a first-contact inbound event creates the conversation
row with exactly that identifier, status OPEN and unread counter 1
(scenario A evaluated concretely), and the creation write is an
idempotent upsert on that identity: two first-contact creation writes for
the same pair converge on exactly one conversation row. -/
theorem c3_identity_upsert_scenarioA (s : Store) (p c t : String) (ts : Int)
    (e : MessageEvent)
    (htext : e.text = some t) (hts : e.timestamp = ts)
    (hsel : selectSingleConv s c p = none)
    (hfresh : ∀ x ∈ s.conversations, x.id ≠ p ++ "_" ++ c) :
    (newConversationRow p c t ts ∈ (handleMessage s e p c).conversations)
    ∧ ((upsertConv (upsertConv s (newConversationRow p c t ts))
          (newConversationRow p c t ts)).conversations.countP
        (fun x => x.id == p ++ "_" ++ c) = 1)
    ∧ scenarioAStore.conversations.map (fun x => (x.id, x.status, x.unreadCount))
        = [(convIdP1C1, "OPEN", 1)]
    ∧ scenarioAStore.messages.map
        (fun m => (m.id, m.conversationId, m.text, m.isIncoming))
        = [(m1Id, convIdP1C1, hiText, true)] := by
  subst hts
  have hfr : ∀ x ∈ s.conversations, x.id ≠ (newConversationRow p c t e.timestamp).id :=
    fun x hx => hfresh x hx
  refine ⟨?_, ?_, by decide, by decide⟩
  · unfold handleMessage
    rw [htext]
    simp only [hsel]
    rw [insertMessage_conversations]
    rw [upsert_fresh_eq s _ hfr]
    simp
  · exact double_upsert_count s (newConversationRow p c t e.timestamp) hfr

/-- Witness for C3: scenario A from the empty store — the created row is
p1_c1 with status OPEN and unread 1, one Message m1 is stored, and the
double creation upsert leaves exactly one row with identity p1_c1. -/
theorem c3_identity_witness :
    (newConversationRow p1 c1 hiText 1000
        ∈ (handleMessage emptyStore scenarioAEvent p1 c1).conversations)
    ∧ ((upsertConv (upsertConv emptyStore (newConversationRow p1 c1 hiText 1000))
          (newConversationRow p1 c1 hiText 1000)).conversations.countP
        (fun x => x.id == p1 ++ "_" ++ c1) = 1)
    ∧ scenarioAStore.conversations.map (fun x => (x.id, x.status, x.unreadCount))
        = [(convIdP1C1, "OPEN", 1)]
    ∧ scenarioAStore.messages.map
        (fun m => (m.id, m.conversationId, m.text, m.isIncoming))
        = [(m1Id, convIdP1C1, hiText, true)] :=
  c3_identity_upsert_scenarioA emptyStore p1 c1 hiText 1000 scenarioAEvent rfl rfl
    rfl (by decide)

lemma insertMessage_fresh (s : Store) (m : Message)
    (h : (s.messages.all fun x => !(x.id == m.id)) = true) :
    insertMessage s m = ({ s with messages := s.messages ++ [m] }, false) := by
  unfold insertMessage
  rw [any_eq_false_of_all_not _ s.messages h]
  simp

lemma apiSendMessage_fresh (s : Store) (cid txt : String)
    (sid sname : Option String) (gid : String) (now : Int)
    (hcid : (cid == "") = false) (htxt : (txt == "") = false)
    (hg : (s.messages.all fun x => !(x.id == gid)) = true) :
    apiSendMessage s cid txt sid sname gid now
      = ({ conversations := s.conversations.map (fun c =>
              if c.id = cid then { c with lastMessage := txt, lastTimestamp := now }
              else c),
           messages := s.messages ++
              [⟨gid, cid, sid.getD ("agent"), sname.getD ("Agent"), txt, now,
                false, true⟩] }, 200) := by
  unfold apiSendMessage
  rw [hcid, htxt]
  simp only [Bool.or_self, Bool.false_eq_true, if_false]
  rw [insertMessage_fresh s _ hg]

def c9Store : Store := ⟨[newConversationRow p1 c1 hiText 0], []⟩

def gidA : String := "msg_100_aaaaaaaaa"

def gidB : String := "msg_101_bbbbbbbbb"

/-- C9 counterexample: invoking the send-message endpoint twice with the
identical request input does not reproduce the identical final state with
exactly one row — the handler generates a fresh identifier per
invocation (Date.now plus a random suffix), so the first call stores one
message row and the repeat stores a second one. -/
theorem c9_two_sends_two_rows :
    (apiSendMessage c9Store convIdP1C1 hiText none none gidA 100).1.messages.length = 1
    ∧ ((apiSendMessage (apiSendMessage c9Store convIdP1C1 hiText none none gidA 100).1
          convIdP1C1 hiText none none gidB 100).1).messages.length = 2 := by
  decide

/-- C9 (amended): the send-message endpoint stores the message with
direction outgoing (isIncoming = false) and read = true and updates the
conversation's last message and last time, but it is not an idempotent
insert: each invocation carries a freshly generated identifier, so two
invocations with identical request input append two message rows. -/
theorem c9_send_message_behavior (s : Store) (cid txt : String)
    (sid sname : Option String) (gid gid2 : String) (now : Int)
    (conv : Conversation)
    (hcid : (cid == "") = false) (htxt : (txt == "") = false)
    (hg1 : (s.messages.all fun x => !(x.id == gid)) = true)
    (hg2 : (s.messages.all fun x => !(x.id == gid2)) = true)
    (hne : (gid == gid2) = false)
    (hconv : conv ∈ s.conversations) :
    (apiSendMessage s cid txt sid sname gid now).2 = 200
    ∧ (apiSendMessage s cid txt sid sname gid now).1.messages
        = s.messages ++ [⟨gid, cid, sid.getD ("agent"), sname.getD ("Agent"),
            txt, now, false, true⟩]
    ∧ ((if conv.id = cid then { conv with lastMessage := txt, lastTimestamp := now }
          else conv) ∈ (apiSendMessage s cid txt sid sname gid now).1.conversations)
    ∧ (apiSendMessage (apiSendMessage s cid txt sid sname gid now).1 cid txt sid
          sname gid2 now).1.messages.length = s.messages.length + 2 := by
  have h1 := apiSendMessage_fresh s cid txt sid sname gid now hcid htxt hg1
  have hfresh2 : (((s.messages ++ [(⟨gid, cid, sid.getD ("agent"),
      sname.getD ("Agent"), txt, now, false, true⟩ : Message)]).all
        fun x => !(x.id == gid2)) = true) := by
    rw [List.all_append]
    simp only [List.all_cons, List.all_nil, Bool.and_true, hg2, Bool.true_and]
    simp [hne]
  refine ⟨?_, ?_, ?_, ?_⟩
  · rw [h1]
  · rw [h1]
  · rw [h1]
    exact List.mem_map_of_mem _ hconv
  · rw [h1]
    rw [apiSendMessage_fresh _ cid txt sid sname gid2 now hcid htxt hfresh2]
    simp [List.length_append]

def c9Conv : Conversation := newConversationRow p1 c1 hiText 0

/-- Witness for C9 (amended): a concrete send into conversation p1_c1
returns 200, appends the outgoing read message row, updates the
conversation, and a second identical request (with its freshly generated
identifier) leaves two rows. -/
theorem c9_send_witness :
    (apiSendMessage c9Store convIdP1C1 hiText none none gidA 100).2 = 200
    ∧ (apiSendMessage c9Store convIdP1C1 hiText none none gidA 100).1.messages
        = c9Store.messages ++ [⟨gidA, convIdP1C1, (none : Option String).getD ("agent"),
            (none : Option String).getD ("Agent"), hiText, 100, false, true⟩]
    ∧ ((if c9Conv.id = convIdP1C1 then
          { c9Conv with lastMessage := hiText, lastTimestamp := 100 } else c9Conv)
        ∈ (apiSendMessage c9Store convIdP1C1 hiText none none gidA 100).1.conversations)
    ∧ (apiSendMessage (apiSendMessage c9Store convIdP1C1 hiText none none gidA 100).1
          convIdP1C1 hiText none none gidB 100).1.messages.length
        = c9Store.messages.length + 2 :=
  c9_send_message_behavior c9Store convIdP1C1 hiText none none gidA gidB 100 c9Conv
    (by decide) (by decide) (by decide) (by decide) (by decide) (by decide)

end MessengerFlow
